import Mathlib

/-!
Shallow embedding of `customer_data_extractor.py` (class `CustomerDataExtractor`):
the value parsers `parse_int` / `parse_price`, the VIP id loader, and the
`transform` pipeline (flattening, `astype` schema enforcement, multi-column
`sort_values`, `reset_index`).

Modelling conventions:
* Python floats are modelled as exact rationals (`ℚ`); the arithmetic in
  `transform` (products, sums, division for percentages) is carried out
  symbolically, so algebraic identities are exact.
* Heterogeneous Python values reaching the parsers are modelled by `RawVal`
  (an integer, a float, a string, or `None`).
* Strings are manipulated as `List Char`; `str.strip` is modelled over ASCII
  whitespace and `str.isdigit` over ASCII decimal digits.  Python niceties not
  exercised by this code's data (underscored numeric literals, `inf` / `nan`
  literals, non-ASCII digits) are outside the model: the modelled `float()` /
  `int()` reject them.
-/

/-- ASCII whitespace test on a character (model of the characters stripped by
`str.strip()`: space, tab, newline, carriage return, vertical tab, form feed). -/
def isWS (c : Char) : Bool :=
  c.toNat == 32 || c.toNat == 9 || c.toNat == 10 || c.toNat == 13 ||
  c.toNat == 11 || c.toNat == 12

/-- ASCII decimal digit test. -/
def isDigitCh (c : Char) : Bool := 48 ≤ c.toNat && c.toNat ≤ 57

/-- Strip leading and trailing whitespace from a character list
(model of `str.strip()`). -/
def trimChars (cs : List Char) : List Char :=
  ((cs.dropWhile isWS).reverse.dropWhile isWS).reverse

/-- Model of `str.strip()` on strings. -/
def pyStrip (s : String) : String := ⟨trimChars s.toList⟩

/-- Value of a digit character. -/
def digitVal (c : Char) : Nat := c.toNat - 48

/-- Natural number denoted by a list of decimal digit characters. -/
def decNat (ds : List Char) : Nat := ds.foldl (fun a c => a * 10 + digitVal c) 0

/-- Split an optional leading sign character off a character list, returning
the sign as `1` or `-1` together with the rest. -/
def splitSign : List Char → Int × List Char
  | [] => (1, [])
  | c :: cs =>
    if c == '+' then (1, cs)
    else if c == '-' then (-1, cs)
    else (1, c :: cs)

/-- All characters are decimal digits. -/
def allDigits (cs : List Char) : Bool := cs.all isDigitCh

/-- Model of `str.isdigit()`: non-empty and all characters are decimal digits. -/
def pyIsdigit (s : String) : Bool := !s.toList.isEmpty && allDigits s.toList

/-- Model of Python `int()` applied to the contents of a string: surrounding
whitespace is ignored, then an optional sign followed by a non-empty run of
decimal digits; anything else raises `ValueError`, modelled as `none`. -/
def pyIntChars? (cs : List Char) : Option Int :=
  let t := trimChars cs
  let p := splitSign t
  if !p.2.isEmpty && allDigits p.2 then some (p.1 * (decNat p.2 : Int)) else none

/-- Split a character list at the first `e` / `E` (exponent marker of a float
literal); returns the mantissa part and, when a marker is present, the
exponent part. -/
def splitExp (cs : List Char) : List Char × Option (List Char) :=
  match cs.span (fun c => !(c == 'e' || c == 'E')) with
  | (m, []) => (m, none)
  | (m, _ :: rest) => (m, some rest)

/-- Parse the mantissa of a float literal: `digits`, `digits.digits`,
`digits.` or `.digits`, with at least one digit in total. -/
def parseMantissa (cs : List Char) : Option ℚ :=
  match cs.span (fun c => !(c == '.')) with
  | (ip, []) =>
    if !ip.isEmpty && allDigits ip then some ((decNat ip : ℚ)) else none
  | (ip, _ :: fp) =>
    if (!ip.isEmpty || !fp.isEmpty) && allDigits ip && allDigits fp then
      some ((decNat ip : ℚ) + (decNat fp : ℚ) / (10 : ℚ) ^ fp.length)
    else none

/-- Parse the exponent of a float literal: optional sign then non-empty digits. -/
def parseExp (cs : List Char) : Option Int :=
  let p := splitSign cs
  if !p.2.isEmpty && allDigits p.2 then some (p.1 * (decNat p.2 : Int)) else none

/-- Model of Python `float()` applied to the contents of a string, restricted
to finite decimal literals: surrounding whitespace ignored, optional sign,
mantissa, optional exponent.  Failures are `none` (`ValueError`). -/
def pyFloatChars? (cs : List Char) : Option ℚ :=
  let t := trimChars cs
  let p := splitSign t
  match splitExp p.2 with
  | (m, none) => (parseMantissa m).map (fun q => (p.1 : ℚ) * q)
  | (m, some ecs) =>
    match parseMantissa m, parseExp ecs with
    | some q, some e => some ((p.1 : ℚ) * q * (10 : ℚ) ^ e)
    | _, _ => none

/-- Heterogeneous raw value, as found in the loaded nested records: an
integer, a float, a string, or `None`. -/
inductive RawVal where
  | vInt (n : Int)
  | vFloat (q : ℚ)
  | vStr (s : String)
  | vNone
deriving DecidableEq

/-- Model of Python `int(value)` on a raw value.  `int` is the identity,
a float truncates toward zero, a string is parsed as an integer literal
(`ValueError` on failure), and `None` raises `TypeError`; both failure modes
are `none`. -/
def pyInt? : RawVal → Option Int
  | .vInt n => some n
  | .vFloat q => some (q.num.tdiv (q.den : Int))
  | .vStr s => pyIntChars? s.toList
  | .vNone => none

/-- Embedding of `CustomerDataExtractor.parse_int`: `int(value)` with the
supplied default returned on `ValueError` / `TypeError` (the Python default
argument is `0`; call sites pass it explicitly here). -/
def parse_int (value : RawVal) (d : Int) : Int :=
  match pyInt? value with
  | some n => n
  | none => d

/-- Remove every occurrence of a character (model of
`str.replace(c, '')`, which replaces all occurrences). -/
def removeChar (c : Char) (cs : List Char) : List Char :=
  cs.filter (fun x => !(x == c))

/-- Embedding of `CustomerDataExtractor.parse_price`:
`float(str(price_raw).replace('$', '').replace(',', '').strip())` with `0.0`
returned on failure.  For non-string values `str()` produces a decimal
rendering free of `$` and `,` that round-trips through `float()`
(`str(None) = "None"` fails to parse), so those cases are modelled directly. -/
def parse_price : RawVal → ℚ
  | .vStr s =>
    (pyFloatChars? (trimChars (removeChar ',' (removeChar '$' s.toList)))).getD 0
  | .vInt n => (n : ℚ)
  | .vFloat q => q
  | .vNone => 0

/-- The spec's description of `parse_price` taken literally, for comparison
with the embedding of the source: strip a LEADING currency symbol (one `$`
at the front), remove thousands separators, trim whitespace, convert to a
float, `0.0` on failure. -/
def parse_price_specLeading : RawVal → ℚ
  | .vStr s =>
    let cs := s.toList
    let noDollar := match cs with
      | c :: rest => if c == '$' then rest else cs
      | [] => []
    (pyFloatChars? (trimChars (removeChar ',' noDollar))).getD 0
  | .vInt n => (n : ℚ)
  | .vFloat q => q
  | .vNone => 0

/-- The amended description of `parse_price`: strip EVERY currency symbol and
thousands separator, wherever it occurs, trim whitespace, convert to a float,
`0.0` on failure. -/
def parse_price_amended : RawVal → ℚ
  | .vStr s =>
    (pyFloatChars? (trimChars (s.toList.filter (fun c => !(c == '$' || c == ','))))).getD 0
  | .vInt n => (n : ℚ)
  | .vFloat q => q
  | .vNone => 0

/-- Embedding of the VIP id loader in `load_data`:
`set(int(line.strip()) for line in f if line.strip().isdigit())`.
The `getD 0` is unreachable: a line passing the `isdigit` filter always
parses. -/
def load_vip_ids (lines : List String) : Finset Int :=
  ((lines.filter (fun l => pyIsdigit (pyStrip l))).map
    (fun l => (pyIntChars? (pyStrip l).toList).getD 0)).toFinset

/-- An item record of the nested input: `item_id`, `product_name`, `category`,
`price`, `quantity` may each be absent (`dict.get` then yields its default).
Per the external-interface contract, `product_name` is text and `category` an
integer code when present; ids, price and quantity may be arbitrary raw
values, which the parsers handle. -/
structure Item where
  item_id : Option RawVal
  product_name : Option String
  category : Option Int
  price : Option RawVal
  quantity : Option RawVal
deriving DecidableEq

/-- An order record: `order_id`, `order_date`, and an `items` collection that
may be absent. -/
structure Order where
  order_id : Option RawVal
  order_date : Option String
  items : Option (List Item)
deriving DecidableEq

/-- A customer record: `id`, `name`, `registration_date`, and an `orders`
collection that may be absent. -/
structure Customer where
  id : Option RawVal
  name : Option String
  registration_date : Option String
  orders : Option (List Order)
deriving DecidableEq

/-- One row of the flattened output table.  Dates are carried through
opaquely: `pd.to_datetime(..., errors='coerce')` is modelled as the raw
value (no claim depends on datetime parsing). -/
structure OutputRow where
  customer_id : Int
  customer_name : String
  registration_date : Option String
  is_vip : Bool
  order_id : Int
  order_date : Option String
  product_id : Int
  product_name : String
  category : String
  unit_price : ℚ
  item_quantity : Int
  total_item_price : ℚ
  total_order_value_percentage : ℚ
deriving DecidableEq

/-- Embedding of `CustomerDataExtractor.CATEGORY_MAPPING`. -/
def CATEGORY_MAPPING : List (Int × String) :=
  [(1, ("Electronics")), (2, ("Apparel")), (3, ("Books")), (4, ("Home Goods"))]

/-- The default label for an absent or unrecognized category code. -/
def miscLabel : String := "Misc"

/-- Model of `CATEGORY_MAPPING.get(item.get('category'), 'Misc')`. -/
def categoryLabel : Option Int → String
  | some c => (CATEGORY_MAPPING.lookup c).getD miscLabel
  | none => miscLabel

/-- The empty string (default of `dict.get('name', '')` and
`dict.get('product_name', '')`). -/
def emptyStr : String := ""

/-- Unit price of an item: `self.parse_price(item.get('price', 0.0))`. -/
def itemUnitPrice (it : Item) : ℚ := parse_price (it.price.getD (.vFloat 0))

/-- Quantity of an item: `self.parse_int(item.get('quantity'))` (absent key
gives `None`, hence the default `0`). -/
def itemQuantity (it : Item) : Int := parse_int (it.quantity.getD .vNone) 0

/-- Total value of an order: the sum over its items of freshly parsed
price times quantity (`order_total` in `transform`). -/
def orderTotal (items : List Item) : ℚ :=
  (items.map (fun it => itemUnitPrice it * (itemQuantity it : ℚ))).sum

/-- Parsed customer identifier: `self.parse_int(customer.get('id'))`. -/
def customerId (c : Customer) : Int := parse_int (c.id.getD .vNone) 0

/-- Parsed order identifier: `self.parse_int(order.get('order_id'))`. -/
def orderId (o : Order) : Int := parse_int (o.order_id.getD .vNone) 0

/-- The output row built for one item inside `transform`'s list
comprehension, given the enclosing customer / order context and the
pre-computed order total. -/
def mkRow (cid : Int) (cname : String) (rdate : Option String) (vip : Bool)
    (oid : Int) (odate : Option String) (total : ℚ) (it : Item) : OutputRow :=
  { customer_id := cid
    customer_name := cname
    registration_date := rdate
    is_vip := vip
    order_id := oid
    order_date := odate
    product_id := parse_int (it.item_id.getD .vNone) 0
    product_name := pyStrip (it.product_name.getD emptyStr)
    category := categoryLabel it.category
    unit_price := itemUnitPrice it
    item_quantity := itemQuantity it
    total_item_price := itemUnitPrice it * (itemQuantity it : ℚ)
    total_order_value_percentage :=
      if 0 < total then itemUnitPrice it * (itemQuantity it : ℚ) / total * 100
      else 0 }

/-- The rows `transform` emits for one order: one per item of
`order.get('items', [])`, each carrying the order total computed first. -/
def orderRows (cid : Int) (cname : String) (rdate : Option String)
    (vip : Bool) (o : Order) : List OutputRow :=
  let items := o.items.getD []
  items.map (mkRow cid cname rdate vip (orderId o) o.order_date (orderTotal items))

/-- The rows `transform` emits for one customer: the concatenation over
`customer.get('orders', [])` of that order's rows. -/
def customerRows (vip_ids : Finset Int) (c : Customer) : List OutputRow :=
  let cid := customerId c
  (c.orders.getD []).flatMap
    (orderRows cid (pyStrip (c.name.getD emptyStr)) c.registration_date
      (decide (cid ∈ vip_ids)))

/-- The full `flat_records` list assembled by `transform`, in nesting
traversal order. -/
def flatRecords (vip_ids : Finset Int) (data : List Customer) : List OutputRow :=
  data.flatMap (customerRows vip_ids)

/-- The 13 output columns, in order. -/
def COLUMNS : List String :=
  [("customer_id"), ("customer_name"), ("registration_date"), ("is_vip"),
   ("order_id"), ("order_date"), ("product_id"), ("product_name"),
   ("category"), ("unit_price"), ("item_quantity"), ("total_item_price"),
   ("total_order_value_percentage")]

/-- Embedding of `CustomerDataExtractor.COLUMN_TYPES` (column name to pandas
dtype string). -/
def COLUMN_TYPES : List (String × String) :=
  [(("customer_id"), ("int64")), (("customer_name"), ("string")),
   (("registration_date"), ("datetime64[ns]")), (("is_vip"), ("bool")),
   (("order_id"), ("int64")), (("order_date"), ("datetime64[ns]")),
   (("product_id"), ("int64")), (("product_name"), ("string")),
   (("category"), ("string")), (("unit_price"), ("float64")),
   (("item_quantity"), ("int64")), (("total_item_price"), ("float64")),
   (("total_order_value_percentage"), ("float64"))]

/-- A pandas DataFrame over the output schema: an index of row labels
alongside the rows. -/
structure DataFrame where
  index : List Nat
  rows : List OutputRow
deriving DecidableEq

/-- Model of `pd.DataFrame(records)`: a fresh `RangeIndex` over the records. -/
def DataFrame.ofRecords (rs : List OutputRow) : DataFrame :=
  ⟨List.range rs.length, rs⟩

/-- The columns of the frame: `pd.DataFrame(records)` infers them from the
record keys, so a frame built from zero records has NO columns, and one built
from at least one record has all 13 (every emitted row dict has all 13 keys). -/
def DataFrame.columns (df : DataFrame) : List String :=
  if df.rows.isEmpty then [] else COLUMNS

/-- Model of `df.astype(dtypes)` with a dtype dict: every key must name an
existing column, otherwise pandas raises `KeyError`; in this typed model the
coercion itself is the identity (rows are already well-typed), so only the
column-presence check remains. -/
def DataFrame.astype (df : DataFrame) (dtypes : List (String × String)) :
    Except String DataFrame :=
  if dtypes.all (fun kv => df.columns.contains kv.1) then .ok df
  else .error ("KeyError: dtype key not found in columns")

/-- The sort key of a row: `(customer_id, order_id, product_id)`. -/
def rowKey (r : OutputRow) : Int × Int × Int :=
  (r.customer_id, r.order_id, r.product_id)

/-- Lexicographic comparison of sort keys (ascending). -/
def keyLe (a b : Int × Int × Int) : Prop :=
  a.1 < b.1 ∨ (a.1 = b.1 ∧ (a.2.1 < b.2.1 ∨ (a.2.1 = b.2.1 ∧ a.2.2 ≤ b.2.2)))

instance : DecidableRel keyLe :=
  fun a b => inferInstanceAs (Decidable (a.1 < b.1 ∨ (a.1 = b.1 ∧
    (a.2.1 < b.2.1 ∨ (a.2.1 = b.2.1 ∧ a.2.2 ≤ b.2.2)))))

instance : IsTotal (Int × Int × Int) keyLe :=
  ⟨fun a b => by unfold keyLe; omega⟩

instance : IsTrans (Int × Int × Int) keyLe :=
  ⟨fun a b c h1 h2 => by unfold keyLe at h1 h2 ⊢; omega⟩

/-- Row comparison used by the sort. -/
def rowLe (a b : OutputRow) : Prop := keyLe (rowKey a) (rowKey b)

instance : DecidableRel rowLe :=
  fun a b => inferInstanceAs (Decidable (keyLe (rowKey a) (rowKey b)))

instance : IsTotal OutputRow rowLe :=
  ⟨fun a b => IsTotal.total (r := keyLe) (rowKey a) (rowKey b)⟩

instance : IsTrans OutputRow rowLe :=
  ⟨fun _ _ _ h1 h2 => IsTrans.trans (r := keyLe) _ _ _ h1 h2⟩

/-- Comparison on labelled rows (`sort_values` keeps each index label with
its row): compare the rows only. -/
def pairLe (a b : Nat × OutputRow) : Prop := rowLe a.2 b.2

instance : DecidableRel pairLe :=
  fun a b => inferInstanceAs (Decidable (rowLe a.2 b.2))

instance : IsTotal (Nat × OutputRow) pairLe :=
  ⟨fun a b => IsTotal.total (r := rowLe) a.2 b.2⟩

instance : IsTrans (Nat × OutputRow) pairLe :=
  ⟨fun _ _ _ h1 h2 => IsTrans.trans (r := rowLe) _ _ _ h1 h2⟩

/-- Model of `df.sort_values(by=['customer_id', 'order_id', 'product_id'])`:
pandas sorts on multiple columns with a stable lexicographic sort
(`numpy.lexsort`; the `kind` option applies only to single-column sorts), and
the index labels travel with their rows.  A stable sort's output is uniquely
determined, so the model uses the stable `List.insertionSort`. -/
def DataFrame.sortValues (df : DataFrame) : DataFrame :=
  let pairs := (df.index.zip df.rows).insertionSort pairLe
  ⟨pairs.map Prod.fst, pairs.map Prod.snd⟩

/-- Model of `df.reset_index(drop=True)`: replace the index by a fresh
`RangeIndex`, keeping the rows. -/
def DataFrame.resetIndex (df : DataFrame) : DataFrame :=
  ⟨List.range df.rows.length, df.rows⟩

/-- Embedding of `CustomerDataExtractor.transform` (given already-loaded
`raw_data` and `vip_ids`): flatten, build the frame, enforce the column
types, sort, re-index.  The `Except` models the uncaught pandas exceptions
of the schema-enforcement stage. -/
def transform (vip_ids : Finset Int) (raw_data : List Customer) :
    Except String DataFrame :=
  let df := DataFrame.ofRecords (flatRecords vip_ids raw_data)
  match df.astype COLUMN_TYPES with
  | .error e => .error e
  | .ok df2 => .ok df2.sortValues.resetIndex

/-- Per-item keys of the source nested structure: one `(customer_id,
order_id)` pair (parsed ids) for every item, in traversal order.  Counting a
key here counts the items of the source orders grouped at that key. -/
def sourceKeys (data : List Customer) : List (Int × Int) :=
  data.flatMap (fun c =>
    (c.orders.getD []).flatMap (fun o =>
      (o.items.getD []).map (fun _ => (customerId c, orderId o))))

/-- Sample item: currency-formatted price, recognized category code. -/
def sampleItemA : Item :=
  { item_id := some (.vInt 10), product_name := some ("Widget"),
    category := some 2, price := some (.vStr ("$1,234.50")),
    quantity := some (.vInt 2) }

/-- Sample item sharing `item_id` with `sampleItemA` (same sort key, so the
pair exercises sort stability) but otherwise distinct. -/
def sampleItemB : Item :=
  { item_id := some (.vInt 10), product_name := some ("Gadget"),
    category := some 99, price := some (.vInt 3),
    quantity := some (.vStr ("4")) }

/-- Sample item whose price fails to parse, so its order's total is 0. -/
def sampleItemC : Item :=
  { item_id := some (.vInt 7), product_name := none,
    category := none, price := some (.vStr ("bad")),
    quantity := some (.vInt 1) }

/-- Sample order with a positive total and two equal-key items. -/
def sampleOrderA : Order :=
  { order_id := some (.vInt 5), order_date := some ("2024-01-02"),
    items := some [sampleItemA, sampleItemB] }

/-- Sample order whose total is 0 (its single item's price is malformed). -/
def sampleOrderB : Order :=
  { order_id := some (.vInt 3), order_date := none,
    items := some [sampleItemC] }

/-- Sample customer owning both sample orders. -/
def sampleCustomer : Customer :=
  { id := some (.vInt 1), name := some (" Ann "),
    registration_date := some ("2020-05-05"), orders := some [sampleOrderA, sampleOrderB] }

/-- Sample customer with no `orders` key at all. -/
def emptyCustomer : Customer :=
  { id := none, name := none, registration_date := none, orders := none }

/-- Sample input collection. -/
def sampleData : List Customer := [sampleCustomer, emptyCustomer]

/-- Sample VIP id set. -/
def sampleVip : Finset Int := {1}

/-- A default row (used only to give `List.headD` a fallback). -/
def dummyRow : OutputRow :=
  mkRow 0 emptyStr none false 0 none 0 ⟨none, none, none, none, none⟩

/-- The frame produced by `transform` on the sample input. -/
def sampleDF : DataFrame :=
  match transform sampleVip sampleData with
  | .ok df => df
  | .error _ => ⟨[], []⟩

/-- The first row of the sample frame. -/
def sampleRow : OutputRow := sampleDF.rows.headD dummyRow

/-! Helper lemmas about the embedding. -/

theorem headD_mem_of_ne_nil {A : Type} (l : List A) (d : A) (h : l.isEmpty = false) :
    l.headD d ∈ l := by
  cases l with
  | nil => simp at h
  | cons a t => simp

theorem isWS_eq_false_of_isDigitCh {c : Char} (h : isDigitCh c = true) :
    isWS c = false := by
  simp only [isDigitCh, Bool.and_eq_true, decide_eq_true_eq] at h
  simp only [isWS, Bool.or_eq_false_iff, beq_eq_false_iff_ne, ne_eq]
  omega

theorem beq_plus_eq_false_of_isDigitCh {c : Char} (h : isDigitCh c = true) :
    (c == '+') = false := by
  cases hb : c == '+' with
  | false => rfl
  | true =>
    rw [eq_of_beq hb] at h
    exact absurd h (by decide)

theorem beq_minus_eq_false_of_isDigitCh {c : Char} (h : isDigitCh c = true) :
    (c == '-') = false := by
  cases hb : c == '-' with
  | false => rfl
  | true =>
    rw [eq_of_beq hb] at h
    exact absurd h (by decide)

theorem dropWhile_isWS_of_digits (ds : List Char)
    (h : ∀ c ∈ ds, isDigitCh c = true) : ds.dropWhile isWS = ds := by
  cases ds with
  | nil => rfl
  | cons a t =>
    simp [List.dropWhile_cons, isWS_eq_false_of_isDigitCh (h a (by simp))]

theorem trimChars_of_digits (ds : List Char)
    (h : ∀ c ∈ ds, isDigitCh c = true) : trimChars ds = ds := by
  unfold trimChars
  rw [dropWhile_isWS_of_digits ds h,
    dropWhile_isWS_of_digits ds.reverse
      (fun c hc => h c (List.mem_reverse.mp hc)),
    List.reverse_reverse]

theorem splitSign_of_digits (ds : List Char) (h0 : ds.isEmpty = false)
    (h : ∀ c ∈ ds, isDigitCh c = true) : splitSign ds = (1, ds) := by
  cases ds with
  | nil => simp at h0
  | cons a t =>
    have ha := h a (by simp)
    simp [splitSign, beq_plus_eq_false_of_isDigitCh ha,
      beq_minus_eq_false_of_isDigitCh ha]

theorem pyIntChars?_of_digits (ds : List Char) (h0 : ds.isEmpty = false)
    (h : allDigits ds = true) : pyIntChars? ds = some ((decNat ds : Nat) : Int) := by
  have hall : ∀ c ∈ ds, isDigitCh c = true := by
    simpa [allDigits, List.all_eq_true] using h
  unfold pyIntChars?
  simp only [trimChars_of_digits ds hall, splitSign_of_digits ds h0 hall, h0, h,
    Bool.not_false, Bool.and_self, if_true, one_mul]

theorem sortValues_ofRecords_rows (rs : List OutputRow) :
    (DataFrame.ofRecords rs).sortValues.rows = rs.insertionSort rowLe := by
  show (((List.range rs.length).zip rs).insertionSort pairLe).map Prod.snd
      = rs.insertionSort rowLe
  rw [List.map_insertionSort pairLe rowLe Prod.snd ((List.range rs.length).zip rs)
    (fun a _ b _ => Iff.rfl)]
  rw [List.map_snd_zip _ _ (by simp)]

theorem transform_eq_ok (vip_ids : Finset Int) (data : List Customer)
    (h : (flatRecords vip_ids data).isEmpty = false) :
    transform vip_ids data =
      .ok ⟨List.range (flatRecords vip_ids data).length,
        (flatRecords vip_ids data).insertionSort rowLe⟩ := by
  unfold transform DataFrame.astype
  have hcol : (DataFrame.ofRecords (flatRecords vip_ids data)).columns = COLUMNS := by
    simp [DataFrame.columns, DataFrame.ofRecords, h]
  have hall : (COLUMN_TYPES.all fun kv => COLUMNS.contains kv.1) = true := by decide
  simp only [hcol, hall, if_true]
  unfold DataFrame.resetIndex
  rw [sortValues_ofRecords_rows]
  simp [DataFrame.sortValues, List.length_insertionSort]

theorem transform_eq_error (vip_ids : Finset Int) (data : List Customer)
    (h : (flatRecords vip_ids data).isEmpty = true) :
    transform vip_ids data = .error ("KeyError: dtype key not found in columns") := by
  unfold transform DataFrame.astype
  have hcol : (DataFrame.ofRecords (flatRecords vip_ids data)).columns = [] := by
    simp [DataFrame.columns, DataFrame.ofRecords, List.isEmpty_iff.mp h]
  have hall : (COLUMN_TYPES.all fun kv => List.contains [] kv.1) = false := by decide
  simp only [hcol, hall, Bool.false_eq_true, if_false]

theorem transform_ok_inv (vip_ids : Finset Int) (data : List Customer)
    (df : DataFrame) (h : transform vip_ids data = .ok df) :
    df.index = List.range (flatRecords vip_ids data).length ∧
    df.rows = (flatRecords vip_ids data).insertionSort rowLe := by
  cases he : (flatRecords vip_ids data).isEmpty with
  | true => rw [transform_eq_error vip_ids data he] at h; exact absurd h (by simp)
  | false =>
    rw [transform_eq_ok vip_ids data he] at h
    cases h
    exact ⟨rfl, rfl⟩

theorem exists_mkRow_of_mem_flatRecords {vip_ids : Finset Int}
    {data : List Customer} {r : OutputRow} (hr : r ∈ flatRecords vip_ids data) :
    ∃ cid cname rdate b oid odate its it, it ∈ its ∧
      r = mkRow cid cname rdate b oid odate (orderTotal its) it := by
  simp only [flatRecords, List.mem_flatMap] at hr
  obtain ⟨c, -, hc⟩ := hr
  simp only [customerRows, List.mem_flatMap] at hc
  obtain ⟨o, -, ho⟩ := hc
  simp only [orderRows, List.mem_map] at ho
  obtain ⟨it, hit, rfl⟩ := ho
  exact ⟨_, _, _, _, _, _, _, it, hit, rfl⟩

theorem mem_rows_of_transform_ok {vip_ids : Finset Int} {data : List Customer}
    {df : DataFrame} (h : transform vip_ids data = .ok df) {r : OutputRow}
    (hr : r ∈ df.rows) : r ∈ flatRecords vip_ids data := by
  rw [(transform_ok_inv vip_ids data df h).2] at hr
  exact (List.mem_insertionSort rowLe).mp hr

theorem pyIsdigit_parts {s : String} (h : pyIsdigit s = true) :
    s.toList.isEmpty = false ∧ allDigits s.toList = true := by
  simpa only [pyIsdigit, Bool.and_eq_true, Bool.not_eq_true'] using h

theorem getD_pyIntChars {s : String} (h : pyIsdigit s = true) :
    (pyIntChars? s.toList).getD 0 = ((decNat s.toList : Nat) : Int) := by
  obtain ⟨h0, hall⟩ := pyIsdigit_parts h
  rw [pyIntChars?_of_digits _ h0 hall]
  rfl

theorem itemUnitPrice_sampleItemA : itemUnitPrice sampleItemA = 2469 / 2 := by
  show ((1 : Int) : ℚ) * (((1234 : Nat) : ℚ) + ((50 : Nat) : ℚ) / (10 : ℚ) ^ (2 : Nat))
      = 2469 / 2
  push_cast
  norm_num

theorem itemQuantity_sampleItemA : itemQuantity sampleItemA = 2 := rfl

theorem itemUnitPrice_sampleItemB : itemUnitPrice sampleItemB = 3 := rfl

theorem itemQuantity_sampleItemB : itemQuantity sampleItemB = 4 := rfl

theorem orderTotal_sampleOrderA :
    orderTotal (sampleOrderA.items.getD []) = 2481 := by
  have h2 : sampleOrderA.items.getD [] = [sampleItemA, sampleItemB] := rfl
  rw [h2]
  simp only [orderTotal, List.map_cons, List.map_nil, List.sum_cons, List.sum_nil,
    itemUnitPrice_sampleItemA, itemQuantity_sampleItemA,
    itemUnitPrice_sampleItemB, itemQuantity_sampleItemB]
  norm_num

/-! Claim theorems. -/

/-- C1: every output row produced by `transform` has
`total_item_price = unit_price * item_quantity`, where `unit_price` and
`item_quantity` are the independently parsed price and quantity of the
row's item. -/
theorem spec_C1_total_item_price (vip_ids : Finset Int) (data : List Customer)
    (df : DataFrame) (h : transform vip_ids data = .ok df)
    (r : OutputRow) (hr : r ∈ df.rows) :
    r.total_item_price = r.unit_price * (r.item_quantity : ℚ) := by
  obtain ⟨cid, cname, rdate, b, oid, odate, its, it, -, rfl⟩ :=
    exists_mkRow_of_mem_flatRecords (mem_rows_of_transform_ok h hr)
  rfl

/-- Witness for C1 at the sample input. -/
theorem spec_C1_witness :
    transform sampleVip sampleData = .ok sampleDF ∧
    sampleRow ∈ sampleDF.rows ∧
    sampleRow.total_item_price = sampleRow.unit_price * (sampleRow.item_quantity : ℚ) :=
  ⟨rfl, headD_mem_of_ne_nil _ _ (by rfl),
    spec_C1_total_item_price sampleVip sampleData sampleDF rfl sampleRow
      (headD_mem_of_ne_nil _ _ (by rfl))⟩

/-- C2: for an order whose computed total is positive, the
`total_order_value_percentage` fields of its output rows sum to exactly 100
(hence to 100 within the 1e-6 tolerance); for an order whose total is 0 or
negative, every one of its rows has percentage exactly 0.  (`transform`'s
final table holds exactly these rows, permuted by the sort.) -/
theorem spec_C2_percentage (cid : Int) (cname : String) (rdate : Option String)
    (b : Bool) (o : Order) :
    (0 < orderTotal (o.items.getD []) →
      ((orderRows cid cname rdate b o).map
        (fun r => r.total_order_value_percentage)).sum = 100 ∧
      |((orderRows cid cname rdate b o).map
        (fun r => r.total_order_value_percentage)).sum - 100| ≤ 1 / 1000000) ∧
    (orderTotal (o.items.getD []) ≤ 0 →
      ∀ r ∈ orderRows cid cname rdate b o, r.total_order_value_percentage = 0) := by
  constructor
  · intro h
    have hT : orderTotal (o.items.getD []) ≠ 0 := ne_of_gt h
    have hsum : ((orderRows cid cname rdate b o).map
        (fun r => r.total_order_value_percentage)).sum = 100 := by
      simp only [orderRows, List.map_map]
      have hfun : ((fun r => r.total_order_value_percentage) ∘
          mkRow cid cname rdate b (orderId o) o.order_date (orderTotal (o.items.getD [])))
          = fun it => (itemUnitPrice it * (itemQuantity it : ℚ)) *
            ((orderTotal (o.items.getD []))⁻¹ * 100) := by
        funext it
        simp only [Function.comp_apply, mkRow, if_pos h]
        ring
      rw [hfun, List.sum_map_mul_right]
      rw [show ((o.items.getD []).map
        (fun it => itemUnitPrice it * (itemQuantity it : ℚ))).sum
          = orderTotal (o.items.getD []) from rfl]
      field_simp
    exact ⟨hsum, by rw [hsum]; norm_num⟩
  · intro h r hr
    simp only [orderRows, List.mem_map] at hr
    obtain ⟨it, -, rfl⟩ := hr
    simp only [mkRow]
    rw [if_neg (not_lt.mpr h)]

/-- Witness for C2: the sample order with positive total. -/
theorem spec_C2_witness :
    0 < orderTotal (sampleOrderA.items.getD []) ∧
    ((orderRows 1 ("Ann") none true sampleOrderA).map
      (fun r => r.total_order_value_percentage)).sum = 100 := by
  have hpos : 0 < orderTotal (sampleOrderA.items.getD []) := by
    rw [orderTotal_sampleOrderA]; norm_num
  exact ⟨hpos, ((spec_C2_percentage 1 ("Ann") none true sampleOrderA).1 hpos).1⟩

/-- C6 (counterexample): the code strips EVERY `$`, not only a leading one,
so on the input `"5$"` it returns `5.0` where the spec's described procedure
(strip only a leading currency symbol) yields `0.0`. -/
theorem spec_C6_counterexample :
    parse_price (.vStr ("5$")) = 5 ∧ parse_price_specLeading (.vStr ("5$")) = 0 ∧
    parse_price (.vStr ("5$")) ≠ parse_price_specLeading (.vStr ("5$")) := by
  have h1 : parse_price (.vStr ("5$")) = 5 := by
    show ((1 : Int) : ℚ) * ((5 : Nat) : ℚ) = 5
    push_cast
    norm_num
  have h2 : parse_price_specLeading (.vStr ("5$")) = 0 := rfl
  exact ⟨h1, h2, by rw [h1, h2]; norm_num⟩

/-- C6 (amended): `parse_price` strips every currency symbol and thousands
separator wherever it occurs, trims whitespace, converts to a float, and
returns `0.0` on any failure (it never raises — it is a total function);
`parse_price("$1,234.50") = 1234.50`, `parse_price("bad") = 0.0`,
`parse_price(None) = 0.0`. -/
theorem spec_C6_parse_price :
    (∀ v, parse_price v = parse_price_amended v) ∧
    parse_price (.vStr ("$1,234.50")) = 2469 / 2 ∧
    parse_price (.vStr ("bad")) = 0 ∧ parse_price .vNone = 0 := by
  refine ⟨fun v => ?_, ?_, rfl, rfl⟩
  · cases v with
    | vStr s =>
      simp only [parse_price, parse_price_amended, removeChar, List.filter_filter]
      have hp : (fun a => (!(a == ',')) && !(a == '$'))
          = (fun c => !(c == '$' || c == ',')) := by
        funext c
        cases hc1 : c == '$' <;> cases hc2 : c == ',' <;> simp [hc1, hc2]
      rw [hp]
    | vInt n => rfl
    | vFloat q => rfl
    | vNone => rfl
  · show ((1 : Int) : ℚ) * (((1234 : Nat) : ℚ) + ((50 : Nat) : ℚ) / (10 : ℚ) ^ (2 : Nat))
        = 2469 / 2
    push_cast
    norm_num

/-- C7: `parse_int` is total — it returns the numeric conversion of the
value when the conversion succeeds and the supplied default on any
conversion failure, never raising; `parse_int("42") = 42`,
`parse_int("abc") = 0`, `parse_int(None, default=-1) = -1`. -/
theorem spec_C7_parse_int :
    (∀ (v : RawVal) (d : Int), parse_int v d = (pyInt? v).getD d) ∧
    parse_int (.vStr ("42")) 0 = 42 ∧ parse_int (.vStr ("abc")) 0 = 0 ∧
    parse_int .vNone (-1) = -1 := by
  refine ⟨fun v d => ?_, rfl, rfl, rfl⟩
  cases h : pyInt? v <;> simp [parse_int, h]

/-- C8: the VIP loader trims each line, includes the integer conversion of
the trimmed line exactly when it is non-empty and consists solely of decimal
digits, and otherwise skips the line; on `["42\n", "  7", "x9", ""]` it
produces `{42, 7}`. -/
theorem spec_C8_vip_loader :
    (∀ (lines : List String) (n : Int),
      n ∈ load_vip_ids lines ↔
        ∃ l ∈ lines, pyIsdigit (pyStrip l) = true ∧
          n = ((decNat (pyStrip l).toList : Nat) : Int)) ∧
    load_vip_ids [("42\n"), ("  7"), ("x9"), ("")] = ({42, 7} : Finset Int) := by
  constructor
  · intro lines n
    simp only [load_vip_ids, List.mem_toFinset, List.mem_map, List.mem_filter]
    constructor
    · rintro ⟨l, ⟨hl, hd⟩, rfl⟩
      exact ⟨l, hl, hd, getD_pyIntChars hd⟩
    · rintro ⟨l, hl, hd, rfl⟩
      exact ⟨l, ⟨hl, hd⟩, getD_pyIntChars hd⟩
  · decide

/-- C3: the final table is sorted ascending by
`(customer_id, order_id, product_id)` (every pair of rows in order, hence
consecutive rows non-decreasing), and its index is the dense sequence
`0..n-1`. -/
theorem spec_C3_sorted (vip_ids : Finset Int) (data : List Customer)
    (df : DataFrame) (h : transform vip_ids data = .ok df) :
    df.rows.Sorted rowLe ∧ df.index = List.range df.rows.length := by
  obtain ⟨hi, hr⟩ := transform_ok_inv vip_ids data df h
  constructor
  · rw [hr]
    exact List.sorted_insertionSort rowLe _
  · rw [hi, hr, List.length_insertionSort]

/-- Witness for C3 at the sample input. -/
theorem spec_C3_witness :
    sampleDF.rows.Sorted rowLe ∧ sampleDF.index = List.range sampleDF.rows.length :=
  spec_C3_sorted sampleVip sampleData sampleDF rfl

/-- C4: the sort is stable — for every sort key, the rows of the final table
carrying that key are exactly the rows of the assembled collection carrying
that key, in the same relative order. -/
theorem spec_C4_stable (vip_ids : Finset Int) (data : List Customer)
    (df : DataFrame) (h : transform vip_ids data = .ok df) (k : Int × Int × Int) :
    df.rows.filter (fun r => rowKey r == k)
      = (flatRecords vip_ids data).filter (fun r => rowKey r == k) := by
  obtain ⟨-, hr⟩ := transform_ok_inv vip_ids data df h
  rw [hr]
  have hsub : List.Sublist ((flatRecords vip_ids data).filter (fun r => rowKey r == k))
      ((flatRecords vip_ids data).insertionSort rowLe) := by
    apply List.sublist_insertionSort
    · apply List.pairwise_of_forall_mem_list
      intro a ha b hb
      have hka : rowKey a = k := by simpa using (List.mem_filter.mp ha).2
      have hkb : rowKey b = k := by simpa using (List.mem_filter.mp hb).2
      show keyLe (rowKey a) (rowKey b)
      rw [hka, hkb]
      unfold keyLe
      omega
    · exact List.filter_sublist _
  have hself : ((flatRecords vip_ids data).filter (fun r => rowKey r == k)).filter
      (fun r => rowKey r == k)
      = (flatRecords vip_ids data).filter (fun r => rowKey r == k) :=
    List.filter_eq_self.mpr (fun a ha => (List.mem_filter.mp ha).2)
  have hsub2 : List.Sublist ((flatRecords vip_ids data).filter (fun r => rowKey r == k))
      (((flatRecords vip_ids data).insertionSort rowLe).filter
        (fun r => rowKey r == k)) := by
    have := hsub.filter (fun r => rowKey r == k)
    rwa [hself] at this
  have hperm : List.Perm
      (((flatRecords vip_ids data).insertionSort rowLe).filter
        (fun r => rowKey r == k))
      ((flatRecords vip_ids data).filter (fun r => rowKey r == k)) :=
    (List.perm_insertionSort rowLe _).filter _
  exact (hsub2.eq_of_length hperm.length_eq.symm).symm

/-- Witness for C4 at the sample input, at the duplicated key `(1, 5, 10)`. -/
theorem spec_C4_witness :
    sampleDF.rows.filter (fun r => rowKey r == ((1 : Int), (5 : Int), (10 : Int)))
      = (flatRecords sampleVip sampleData).filter
          (fun r => rowKey r == ((1 : Int), (5 : Int), (10 : Int))) :=
  spec_C4_stable sampleVip sampleData sampleDF rfl ((1 : Int), (5 : Int), (10 : Int))

/-- C5: an order with zero items contributes zero rows, a customer with zero
orders contributes zero rows, and an absent `orders` / `items` collection is
treated as empty.  BUT the claim's final clause fails: on an input whose
flattened record list is empty (e.g. one customer with no `orders` key),
`transform` fails fatally — `pd.DataFrame([])` has no columns, so
`df.astype(COLUMN_TYPES)` raises `KeyError`. -/
theorem spec_C5_empty_collections :
    (∀ (cid : Int) (cname : String) (rdate : Option String) (b : Bool)
      (oid : Option RawVal) (odate : Option String),
      orderRows cid cname rdate b ⟨oid, odate, some []⟩ = [] ∧
      orderRows cid cname rdate b ⟨oid, odate, none⟩ = []) ∧
    (∀ (vip_ids : Finset Int) (cidv : Option RawVal) (cname : Option String)
      (rdate : Option String),
      customerRows vip_ids ⟨cidv, cname, rdate, some []⟩ = [] ∧
      customerRows vip_ids ⟨cidv, cname, rdate, none⟩ = []) ∧
    transform ∅ [emptyCustomer] = .error ("KeyError: dtype key not found in columns") :=
  ⟨fun _ _ _ _ _ _ => ⟨rfl, rfl⟩, fun _ _ _ _ => ⟨rfl, rfl⟩,
    transform_eq_error ∅ [emptyCustomer] rfl⟩

/-- Every category label the mapping can produce is one of the four fixed
labels or `Misc`. -/
theorem categoryLabel_cases (oc : Option Int) :
    categoryLabel oc = ("Electronics") ∨ categoryLabel oc = ("Apparel") ∨
    categoryLabel oc = ("Books") ∨ categoryLabel oc = ("Home Goods") ∨
    categoryLabel oc = miscLabel := by
  cases oc with
  | none => exact Or.inr (Or.inr (Or.inr (Or.inr rfl)))
  | some c =>
    cases h1 : c == (1 : Int) <;> cases h2 : c == (2 : Int) <;>
      cases h3 : c == (3 : Int) <;> cases h4 : c == (4 : Int) <;>
      simp [categoryLabel, CATEGORY_MAPPING, List.lookup, h1, h2, h3, h4, miscLabel]

/-- C9: every output row's category is one of the fixed labels or `Misc`;
code `2` maps to `Apparel`, an absent code and the unrecognized code `99`
map to `Misc`. -/
theorem spec_C9_category (vip_ids : Finset Int) (data : List Customer)
    (df : DataFrame) (h : transform vip_ids data = .ok df) :
    (∀ r ∈ df.rows, r.category = ("Electronics") ∨ r.category = ("Apparel") ∨
      r.category = ("Books") ∨ r.category = ("Home Goods") ∨
      r.category = miscLabel) ∧
    categoryLabel (some 2) = ("Apparel") ∧
    categoryLabel none = miscLabel ∧ categoryLabel (some 99) = miscLabel := by
  refine ⟨fun r hr => ?_, rfl, rfl, rfl⟩
  obtain ⟨cid, cname, rdate, b, oid, odate, its, it, -, rfl⟩ :=
    exists_mkRow_of_mem_flatRecords (mem_rows_of_transform_ok h hr)
  exact categoryLabel_cases it.category

/-- Witness for C9 at the sample input's first row. -/
theorem spec_C9_witness :
    sampleRow.category = ("Electronics") ∨ sampleRow.category = ("Apparel") ∨
    sampleRow.category = ("Books") ∨ sampleRow.category = ("Home Goods") ∨
    sampleRow.category = miscLabel :=
  (spec_C9_category sampleVip sampleData sampleDF rfl).1 sampleRow
    (headD_mem_of_ne_nil _ _ (by rfl))

/-- The `(customer_id, order_id)` keys of the flattened records are, in
order, the per-item keys of the source nested structure. -/
theorem map_key_flatRecords (vip_ids : Finset Int) (data : List Customer) :
    (flatRecords vip_ids data).map (fun r => (r.customer_id, r.order_id))
      = sourceKeys data := by
  simp only [flatRecords, sourceKeys, customerRows, orderRows, List.map_flatMap,
    List.map_map]
  rfl

/-- C10: grouping the output rows by `(customer_id, order_id)` reconstructs
the source item counts — the total row count equals the total item count,
and for every key the number of rows at that key equals the number of items
of the source orders grouped at that key. -/
theorem spec_C10_roundtrip (vip_ids : Finset Int) (data : List Customer)
    (df : DataFrame) (h : transform vip_ids data = .ok df) :
    df.rows.length = (sourceKeys data).length ∧
    ∀ k : Int × Int,
      (df.rows.filter (fun r => (r.customer_id, r.order_id) == k)).length
        = (sourceKeys data).count k := by
  obtain ⟨-, hr⟩ := transform_ok_inv vip_ids data df h
  constructor
  · rw [hr, List.length_insertionSort, ← map_key_flatRecords vip_ids data,
      List.length_map]
  · intro k
    rw [hr, ← List.countP_eq_length_filter]
    rw [List.Perm.countP_eq _ (List.perm_insertionSort rowLe _)]
    rw [List.count_eq_countP, ← map_key_flatRecords vip_ids data, List.countP_map]
    rfl

/-- Witness for C10 at the sample input and the key `(1, 5)`. -/
theorem spec_C10_witness :
    sampleDF.rows.length = (sourceKeys sampleData).length ∧
    (sampleDF.rows.filter
      (fun r => (r.customer_id, r.order_id) == ((1 : Int), (5 : Int)))).length
      = (sourceKeys sampleData).count ((1 : Int), (5 : Int)) :=
  ⟨(spec_C10_roundtrip sampleVip sampleData sampleDF rfl).1,
    (spec_C10_roundtrip sampleVip sampleData sampleDF rfl).2 ((1 : Int), (5 : Int))⟩
